import Mathlib

/-!
Verification development for `raylib-cpp`'s `include/Model.hpp` (`raylib::Model`,
a RAII wrapper around the raylib C struct `::Model`).

Modelling conventions:
* C `float` values are modelled as exact rationals `ℚ`; the min/max accumulation in
  `GetTransformedBoundingBox` only uses the order on floats, which the order on `ℚ`
  mirrors for all non-NaN values.
* Pointer-typed fields of `::Model` (`meshes`, `materials`, `meshMaterial`, `bones`,
  `bindPose`) are modelled as `Option (List _)`: `none` is the null pointer, and
  `some xs` is a non-null pointer to the array `xs`.  Shallow copies of a pointer
  field (aliasing) are equalities of these `Option` values.
* Calls into the raylib engine are modelled by an abstract `Engine` record of
  functions (for calls whose return value or in-place mutation the wrapper
  observes) together with an `EngineCall` trace (for effectful calls the wrapper
  fires and forgets).  Methods are state transformers: a const method returns its
  result together with the unchanged object state, a mutating method returns the
  new object state and the list of engine calls it performed.
* Opaque engine value types (`Matrix`, `Material`, `BoneInfo`, `Transform`,
  `ModelAnimation`, `Color`) are carriers with no structure the wrapper inspects.
-/

namespace raylib

/-- Componentwise 3-vector of rationals, modelling raylib's `Vector3` of floats. -/
structure Vector3 where
  x : ℚ
  y : ℚ
  z : ℚ
deriving DecidableEq, Repr

/-- Axis-aligned bounding box, modelling raylib's `BoundingBox`. -/
structure BoundingBox where
  min : Vector3
  max : Vector3
deriving DecidableEq, Repr

/-- The zero-initialized `BoundingBox bounds = {};` of C++. -/
def zeroBox : BoundingBox := ⟨⟨0, 0, 0⟩, ⟨0, 0, 0⟩⟩

/-- Opaque 4x4 matrix value (raylib `Matrix`); the wrapper never inspects it. -/
structure Matrix where
  val : Nat
deriving DecidableEq, Repr

/-- Opaque material value (raylib `Material`). -/
structure Material where
  val : Nat
deriving DecidableEq, Repr

/-- Opaque bone-info value (raylib `BoneInfo`). -/
structure BoneInfo where
  val : Nat
deriving DecidableEq, Repr

/-- Opaque transform value (raylib `Transform`, the element type of `bindPose`). -/
structure Transform where
  val : Nat
deriving DecidableEq, Repr

/-- Opaque model-animation value (raylib `ModelAnimation`). -/
structure ModelAnimation where
  val : Nat
deriving DecidableEq, Repr

/-- RGBA color (raylib `Color`); the wrapper only passes it through. -/
structure Color where
  r : Nat
  g : Nat
  b : Nat
  a : Nat
deriving DecidableEq, Repr

/-- Modelled from the spec: `raylib::Radian` (raylib-cpp utility type, not under
`src/`) is a thin wrapper around a float angle; modelled as the angle itself. -/
abbrev Radian := ℚ

/-- Modelled from the spec: `raylib::Mesh` (`Mesh.hpp`, not under `src/`) is used by
`Model::GetTransformedBoundingBox` only through its member
`GetTransformedBoundingBox(transform)`, the per-mesh bounding box under a transform
("min/max accumulation over per-mesh bounding boxes under a transform").  A mesh is
therefore abstracted by exactly that function. -/
structure Mesh where
  GetTransformedBoundingBox : Matrix → BoundingBox

/-- Default mesh used to totalize out-of-range array reads (undefined behavior in
the C++; never reached under the theorems' bounds hypotheses). -/
def defaultMesh : Mesh := ⟨fun _ => zeroBox⟩

/-- The nine fields of the raylib C struct `::Model`, which `raylib::Model`
inherits (the wrapper adds no fields of its own). -/
structure Model where
  transform : Matrix
  meshCount : Int
  materialCount : Int
  meshes : Option (List Mesh)
  materials : Option (List Material)
  meshMaterial : Option (List Int)
  boneCount : Int
  bones : Option (List BoneInfo)
  bindPose : Option (List Transform)

/-- Exception type of `raylib::RaylibException` (header not under `src/`; modelled
from the spec: "throwing on failed load" carries a message string). -/
structure RaylibException where
  message : String
deriving DecidableEq, Repr

/-- Abstract behaviour of the raylib engine calls whose results the wrapper
observes.  `setModelMeshMaterial` receives the model by pointer and may mutate it,
so it is a state transformer; the others are pure queries/loads. -/
structure Engine where
  loadModel : String → Model
  loadModelFromMesh : Mesh → Model
  isModelReady : Model → Bool
  getModelBoundingBox : Model → BoundingBox
  isModelAnimationValid : Model → ModelAnimation → Bool
  setModelMeshMaterial : Model → Int → Int → Model

/-- Trace entries for effectful engine calls fired by the wrapper, recording the
exact arguments passed. -/
inductive EngineCall where
  | unloadModel (model : Model)
  | setModelMeshMaterial (model : Model) (meshId : Int) (materialId : Int)
  | updateModelAnimation (model : Model) (anim : ModelAnimation) (frame : Int)
  | drawModel (model : Model) (position : Vector3) (scale : ℚ) (tint : Color)
  | drawModelEx (model : Model) (position : Vector3) (rotationAxis : Vector3)
      (rotationAngle : Radian) (scale : Vector3) (tint : Color)
  | drawModelWires (model : Model) (position : Vector3) (scale : ℚ) (tint : Color)
  | drawModelWiresEx (model : Model) (position : Vector3) (rotationAxis : Vector3)
      (rotationAngle : Radian) (scale : Vector3) (tint : Color)

/-- Null test on a modelled pointer: `p != nullptr` is `p ≠ none`.  Decidable
regardless of the pointee type (the test only looks at the constructor). -/
instance {α : Type} (o : Option α) : Decidable (o = none) := Option.decidableEqNone

/-- `Model::set(const ::Model&)` (Model.hpp lines 256-268): copy all nine fields of
`model` into `self`. -/
def Model.set (self model : Model) : Model :=
  { self with
    transform := model.transform
    meshCount := model.meshCount
    materialCount := model.materialCount
    meshes := model.meshes
    materials := model.materials
    meshMaterial := model.meshMaterial
    boneCount := model.boneCount
    bones := model.bones
    bindPose := model.bindPose }

/-- Array read `meshes[i]`: contents of the `meshes` pointer at index `i`
(totalized with `defaultMesh` where the C++ would be undefined). -/
def Model.meshAt (m : Model) (i : Nat) : Mesh :=
  (m.meshes.getD []).getD i defaultMesh

/-- One merge step of `Model::GetTransformedBoundingBox` (Model.hpp lines 202-210):
the ternary min/max update of `bounds` against `tempBounds`. -/
def mergeBounds (bounds tempBounds : BoundingBox) : BoundingBox :=
  { min :=
      { x := if bounds.min.x < tempBounds.min.x then bounds.min.x else tempBounds.min.x
        y := if bounds.min.y < tempBounds.min.y then bounds.min.y else tempBounds.min.y
        z := if bounds.min.z < tempBounds.min.z then bounds.min.z else tempBounds.min.z }
    max :=
      { x := if bounds.max.x > tempBounds.max.x then bounds.max.x else tempBounds.max.x
        y := if bounds.max.y > tempBounds.max.y then bounds.max.y else tempBounds.max.y
        z := if bounds.max.z > tempBounds.max.z then bounds.max.z else tempBounds.max.z } }

/-- The `for (int i = 1; i < meshCount; i++)` loop of
`Model::GetTransformedBoundingBox` (Model.hpp lines 198-211), encoded with a fuel
argument that bounds the number of iterations; the loop guard `i < meshCount` is
the one from the source, and `Model.GetTransformedBoundingBox` supplies enough
fuel for the guard alone to decide termination. -/
def gtbbLoop (m : Model) : Nat → Nat → BoundingBox → BoundingBox
  | 0, _, bounds => bounds
  | fuel + 1, i, bounds =>
    if (i : Int) < m.meshCount then
      gtbbLoop m fuel (i + 1)
        (mergeBounds bounds ((m.meshAt i).GetTransformedBoundingBox m.transform))
    else
      bounds

/-- `Model::GetTransformedBoundingBox()` (Model.hpp lines 190-215): zero-initialize
`bounds`; if `meshCount > 0`, start from the transformed box of `meshes[0]` and
fold the min/max merge over `meshes[1..meshCount-1]`.  Const method: second
component is the unchanged object state. -/
def Model.GetTransformedBoundingBox (m : Model) : BoundingBox × Model :=
  let bounds : BoundingBox := zeroBox
  if m.meshCount > 0 then
    (gtbbLoop m m.meshCount.toNat 1
      ((m.meshAt 0).GetTransformedBoundingBox m.transform), m)
  else
    (bounds, m)

/-- Spec-side merge: componentwise minimum of the `min` corners and componentwise
maximum of the `max` corners, phrased with `min`/`max` of the order on `ℚ`. -/
def minmaxMerge (a b : BoundingBox) : BoundingBox :=
  ⟨⟨min a.min.x b.min.x, min a.min.y b.min.y, min a.min.z b.min.z⟩,
   ⟨max a.max.x b.max.x, max a.max.y b.max.y, max a.max.z b.max.z⟩⟩

/-- `Model::Unload()` (Model.hpp lines 106-112): if `meshes != nullptr ||
materials != nullptr`, call `::UnloadModel(*this)` and null out `meshes` and
`materials`; otherwise do nothing. -/
def Model.Unload (m : Model) : Model × List EngineCall :=
  if m.meshes ≠ none ∨ m.materials ≠ none then
    ({ m with meshes := none, materials := none }, [EngineCall.unloadModel m])
  else
    (m, [])

/-- `Model::~Model()` (Model.hpp lines 47-49): the destructor runs `Unload()`. -/
def Model.dtor (m : Model) : Model × List EngineCall :=
  m.Unload

/-- Runs `Unload()` `n` times in a row, collecting the engine calls of every run
(used to state that repeated unloads stay silent). -/
def Model.unloadIter (m : Model) : Nat → Model × List EngineCall
  | 0 => (m, [])
  | n + 1 =>
    let u := m.Unload
    let rest := u.1.unloadIter n
    (rest.1, u.2 ++ rest.2)

/-- `Model(Model&& other)` (Model.hpp lines 53-64): `set(other)` into the
freshly constructed object (whose inherited fields start out indeterminate,
passed here as `init`), then null out the source.  Returns (destination,
moved-from source). -/
def Model.moveCtor (init other : Model) : Model × Model :=
  (init.set other,
   { other with
     meshCount := 0
     materialCount := 0
     meshes := none
     materials := none
     meshMaterial := none
     boneCount := 0
     bones := none
     bindPose := none })

/-- `Model& operator=(Model&& other)` (Model.hpp lines 83-101): on self-assignment
(`this == &other`, flagged by `isSelf`) do nothing; otherwise `Unload()`,
`set(other)`, and null out the source.  Returns (destination, moved-from source,
engine calls fired). -/
def Model.moveAssign (self other : Model) (isSelf : Bool) : Model × Model × List EngineCall :=
  if isSelf then
    (self, other, [])
  else
    let u := self.Unload
    (u.1.set other,
     { other with
       meshCount := 0
       materialCount := 0
       meshes := none
       materials := none
       meshMaterial := none
       boneCount := 0
       bones := none
       bindPose := none },
     u.2)

/-- `Model::IsReady()` (Model.hpp lines 227-229): forwards to
`::IsModelReady(*this)`.  Const method: second component is the unchanged state. -/
def Model.IsReady (eng : Engine) (m : Model) : Bool × Model :=
  (eng.isModelReady m, m)

/-- `Model::Load(const std::string_view)` (Model.hpp lines 236-241):
`set(::LoadModel(fileName.data()))`, then throw a `RaylibException` if
`!IsReady()`.  The thrown exception is the `Except.error` case; on success the
new object state is returned. -/
def Model.LoadFile (eng : Engine) (self : Model) (fileName : String) :
    Except RaylibException Model :=
  let self1 := self.set (eng.loadModel fileName)
  if !(self1.IsReady eng).1 then
    Except.error ⟨"Failed to load Model from " ++ fileName⟩
  else
    Except.ok self1

/-- `Model::Load(const ::Mesh&)` (Model.hpp lines 248-253):
`set(::LoadModelFromMesh(mesh))`, then throw a `RaylibException` if
`!IsReady()`. -/
def Model.LoadMesh (eng : Engine) (self : Model) (mesh : Mesh) :
    Except RaylibException Model :=
  let self1 := self.set (eng.loadModelFromMesh mesh)
  if !(self1.IsReady eng).1 then
    Except.error ⟨"Failed to load Model from Mesh"⟩
  else
    Except.ok self1

/-- `Model(const std::string_view fileName)` (Model.hpp lines 34-36): the
constructor body is `Load(fileName)`, run on an object whose inherited fields
start out indeterminate (`init`). -/
def Model.ctorFromFile (eng : Engine) (init : Model) (fileName : String) :
    Except RaylibException Model :=
  Model.LoadFile eng init fileName

/-- `Model(const ::Mesh& mesh)` (Model.hpp lines 43-45): the constructor body is
`Load(mesh)`. -/
def Model.ctorFromMesh (eng : Engine) (init : Model) (mesh : Mesh) :
    Except RaylibException Model :=
  Model.LoadMesh eng init mesh

/-- `Model(const ::Model& model)` (Model.hpp lines 25-27): the constructor body is
`set(model)`; no engine call is made. -/
def Model.copyCtorFromRaw (init model : Model) : Model × List EngineCall :=
  (init.set model, [])

/-- `Model& operator=(const ::Model& model)` (Model.hpp lines 76-79): the body is
`set(model); return *this;`; no engine call is made. -/
def Model.assignFromRaw (self model : Model) : Model × List EngineCall :=
  (self.set model, [])

/-- `Model::SetMeshMaterial(int meshId, int materialId)` (Model.hpp lines
117-120): `::SetModelMeshMaterial(this, meshId, materialId); return *this;`.
The engine receives the object by pointer and may mutate it, so the post-state
is the engine's result. -/
def Model.SetMeshMaterial (eng : Engine) (m : Model) (meshId materialId : Int) :
    Model × List EngineCall :=
  (eng.setModelMeshMaterial m meshId materialId,
   [EngineCall.setModelMeshMaterial m meshId materialId])

/-- `Model::UpdateAnimation(const ::ModelAnimation&, int)` (Model.hpp lines
125-128): `::UpdateModelAnimation(*this, anim, frame); return *this;`.  The
engine receives the struct by value, so the wrapper's fields are unchanged. -/
def Model.UpdateAnimation (m : Model) (anim : ModelAnimation) (frame : Int) :
    Model × List EngineCall :=
  (m, [EngineCall.updateModelAnimation m anim frame])

/-- `Model::IsModelAnimationValid(const ::ModelAnimation&)` (Model.hpp lines
133-135): forwards to `::IsModelAnimationValid(*this, anim)`. -/
def Model.IsModelAnimationValid (eng : Engine) (m : Model) (anim : ModelAnimation) :
    Bool × Model :=
  (eng.isModelAnimationValid m anim, m)

/-- `Model::Draw(::Vector3, float, ::Color)` (Model.hpp lines 140-144): fires
`::DrawModel(*this, position, scale, tint)`. -/
def Model.Draw (m : Model) (position : Vector3) (scale : ℚ) (tint : Color) :
    Model × List EngineCall :=
  (m, [EngineCall.drawModel m position scale tint])

/-- `Model::Draw(::Vector3, ::Vector3, Radian, ::Vector3, ::Color)` (Model.hpp
lines 149-156): fires `::DrawModelEx(...)`. -/
def Model.DrawEx (m : Model) (position rotationAxis : Vector3)
    (rotationAngle : Radian) (scale : Vector3) (tint : Color) :
    Model × List EngineCall :=
  (m, [EngineCall.drawModelEx m position rotationAxis rotationAngle scale tint])

/-- `Model::DrawWires(::Vector3, float, ::Color)` (Model.hpp lines 161-165):
fires `::DrawModelWires(...)`. -/
def Model.DrawWires (m : Model) (position : Vector3) (scale : ℚ) (tint : Color) :
    Model × List EngineCall :=
  (m, [EngineCall.drawModelWires m position scale tint])

/-- `Model::DrawWires(::Vector3, ::Vector3, Radian, ::Vector3, ::Color)`
(Model.hpp lines 170-177): fires `::DrawModelWiresEx(...)`. -/
def Model.DrawWiresEx (m : Model) (position rotationAxis : Vector3)
    (rotationAngle : Radian) (scale : Vector3) (tint : Color) :
    Model × List EngineCall :=
  (m, [EngineCall.drawModelWiresEx m position rotationAxis rotationAngle scale tint])

/-- `Model::GetBoundingBox()` (Model.hpp lines 182-184): forwards to
`::GetModelBoundingBox(*this)`. -/
def Model.GetBoundingBox (eng : Engine) (m : Model) : BoundingBox × Model :=
  (eng.getModelBoundingBox m, m)

/-- `operator BoundingBox()` (Model.hpp lines 220-222): returns
`GetBoundingBox()`. -/
def Model.toBoundingBox (eng : Engine) (m : Model) : BoundingBox × Model :=
  m.GetBoundingBox eng

/-- Modelled from the spec: the `GETTERSETTER` macro (raylib-cpp-utils.hpp, not
under `src/`) expands, per the spec's "exposing getters/setters for POD fields",
to a getter returning the named field.  Instance for
`GETTERSETTER(::Matrix, Transform, transform)` (Model.hpp line 66). -/
def Model.GetTransform (m : Model) : Matrix := m.transform

/-- Modelled from the spec: `GETTERSETTER` setter writing its argument to the
named field.  Instance for `transform` (Model.hpp line 66). -/
def Model.SetTransform (m : Model) (value : Matrix) : Model :=
  { m with transform := value }

/-- Modelled from the spec: `GETTERSETTER` getter for `meshCount` (line 67). -/
def Model.GetMeshCount (m : Model) : Int := m.meshCount

/-- Modelled from the spec: `GETTERSETTER` setter for `meshCount` (line 67). -/
def Model.SetMeshCount (m : Model) (value : Int) : Model :=
  { m with meshCount := value }

/-- Modelled from the spec: `GETTERSETTER` getter for `materialCount` (line 68). -/
def Model.GetMaterialCount (m : Model) : Int := m.materialCount

/-- Modelled from the spec: `GETTERSETTER` setter for `materialCount` (line 68). -/
def Model.SetMaterialCount (m : Model) (value : Int) : Model :=
  { m with materialCount := value }

/-- Modelled from the spec: `GETTERSETTER` getter for `meshes` (line 69). -/
def Model.GetMeshes (m : Model) : Option (List Mesh) := m.meshes

/-- Modelled from the spec: `GETTERSETTER` setter for `meshes` (line 69). -/
def Model.SetMeshes (m : Model) (value : Option (List Mesh)) : Model :=
  { m with meshes := value }

/-- Modelled from the spec: `GETTERSETTER` getter for `materials` (line 70). -/
def Model.GetMaterials (m : Model) : Option (List Material) := m.materials

/-- Modelled from the spec: `GETTERSETTER` setter for `materials` (line 70). -/
def Model.SetMaterials (m : Model) (value : Option (List Material)) : Model :=
  { m with materials := value }

/-- Modelled from the spec: `GETTERSETTER` getter for `meshMaterial` (line 71). -/
def Model.GetMeshMaterial (m : Model) : Option (List Int) := m.meshMaterial

/-- Modelled from the spec: `GETTERSETTER` setter for `meshMaterial` (line 71);
named `SetMeshMaterialField` here because the C++ overload set
`SetMeshMaterial(int*)` / `SetMeshMaterial(int, int)` cannot share one Lean
name. -/
def Model.SetMeshMaterialField (m : Model) (value : Option (List Int)) : Model :=
  { m with meshMaterial := value }

/-- Modelled from the spec: `GETTERSETTER` getter for `boneCount` (line 72). -/
def Model.GetBoneCount (m : Model) : Int := m.boneCount

/-- Modelled from the spec: `GETTERSETTER` setter for `boneCount` (line 72). -/
def Model.SetBoneCount (m : Model) (value : Int) : Model :=
  { m with boneCount := value }

/-- Modelled from the spec: `GETTERSETTER` getter for `bones` (line 73). -/
def Model.GetBones (m : Model) : Option (List BoneInfo) := m.bones

/-- Modelled from the spec: `GETTERSETTER` setter for `bones` (line 73). -/
def Model.SetBones (m : Model) (value : Option (List BoneInfo)) : Model :=
  { m with bones := value }

/-- Modelled from the spec: `GETTERSETTER` getter for `bindPose` (line 74). -/
def Model.GetBindPose (m : Model) : Option (List Transform) := m.bindPose

/-- Modelled from the spec: `GETTERSETTER` setter for `bindPose` (line 74). -/
def Model.SetBindPose (m : Model) (value : Option (List Transform)) : Model :=
  { m with bindPose := value }

/-- Concrete mesh whose transformed bounding box is the unit box, for witnesses. -/
def meshA : Mesh := ⟨fun _ => ⟨⟨0, 0, 0⟩, ⟨1, 1, 1⟩⟩⟩

/-- Concrete mesh whose transformed bounding box is `[-1,2,0] × [0,3,5]`, for
witnesses. -/
def meshB : Mesh := ⟨fun _ => ⟨⟨-1, 2, 0⟩, ⟨0, 3, 5⟩⟩⟩

/-- Concrete two-mesh model used by the bounding-box witnesses. -/
def wModel : Model where
  transform := ⟨7⟩
  meshCount := 2
  materialCount := 1
  meshes := some [meshA, meshB]
  materials := some [⟨0⟩]
  meshMaterial := some [0, 0]
  boneCount := 0
  bones := none
  bindPose := none

/-- Concrete model with no meshes and null pointers, used by witnesses. -/
def wEmpty : Model where
  transform := ⟨0⟩
  meshCount := 0
  materialCount := 0
  meshes := none
  materials := none
  meshMaterial := none
  boneCount := 0
  bones := none
  bindPose := none

/-- Concrete engine whose loads always come back ready, for witnesses. -/
def engReady : Engine where
  loadModel := fun _ => wModel
  loadModelFromMesh := fun _ => wModel
  isModelReady := fun _ => true
  getModelBoundingBox := fun _ => zeroBox
  isModelAnimationValid := fun _ _ => true
  setModelMeshMaterial := fun m _ _ => m

/-- Concrete engine whose loads never come back ready, for witnesses. -/
def engFail : Engine where
  loadModel := fun _ => wEmpty
  loadModelFromMesh := fun _ => wEmpty
  isModelReady := fun _ => false
  getModelBoundingBox := fun _ => zeroBox
  isModelAnimationValid := fun _ _ => false
  setModelMeshMaterial := fun m _ _ => m

theorem ite_lt_min (a b : ℚ) : (if a < b then a else b) = min a b := by
  rcases le_or_lt b a with h | h
  · rw [if_neg (not_lt.mpr h), min_eq_right h]
  · rw [if_pos h, min_eq_left h.le]

theorem ite_gt_max (a b : ℚ) : (if a > b then a else b) = max a b := by
  rcases le_or_lt a b with h | h
  · rw [if_neg (not_lt.mpr h), max_eq_right h]
  · rw [if_pos h, max_eq_left h.le]

theorem mergeBounds_eq_minmaxMerge : mergeBounds = minmaxMerge := by
  funext a b
  simp only [mergeBounds, minmaxMerge, ite_lt_min, ite_gt_max]

theorem gtbbLoop_eq_foldl (m : Model) (ms : List Mesh) (hm : m.meshes = some ms)
    (hlen : m.meshCount.toNat ≤ ms.length) :
    ∀ (fuel i : Nat) (b : BoundingBox), m.meshCount.toNat ≤ i + fuel →
      gtbbLoop m fuel i b =
        (((ms.take m.meshCount.toNat).drop i).map
            (fun mesh => mesh.GetTransformedBoundingBox m.transform)).foldl mergeBounds b := by
  intro fuel
  induction fuel with
  | zero =>
    intro i b hfuel
    have hle : m.meshCount.toNat ≤ i := by omega
    have hdrop : ((ms.take m.meshCount.toNat).drop i) = [] := by
      apply List.drop_eq_nil_of_le
      rw [List.length_take]
      exact le_trans (min_le_left _ _) hle
    simp [gtbbLoop, hdrop]
  | succ fuel ih =>
    intro i b hfuel
    by_cases h : (i : Int) < m.meshCount
    · have hiN : i < m.meshCount.toNat := Int.lt_toNat.mpr h
      have hitake : i < ((ms.take m.meshCount.toNat)).length := by
        rw [List.length_take]
        exact lt_min hiN (lt_of_lt_of_le hiN hlen)
      have hdrop : (ms.take m.meshCount.toNat).drop i =
          (ms.take m.meshCount.toNat)[i] :: (ms.take m.meshCount.toNat).drop (i + 1) :=
        List.drop_eq_getElem_cons hitake
      have hmesh : m.meshAt i = (ms.take m.meshCount.toNat)[i] := by
        rw [Model.meshAt, hm]
        have hims : i < ms.length := lt_of_lt_of_le hiN hlen
        simp [List.getD_eq_getElem, hims]
      rw [gtbbLoop, if_pos h, hdrop]
      rw [List.map_cons, List.foldl_cons, hmesh]
      exact ih (i + 1) _ (by omega)
    · have hle : m.meshCount.toNat ≤ i := by
        have := Int.not_lt.mp h
        exact Int.toNat_le.mpr (by exact_mod_cast this)
      have hdrop : ((ms.take m.meshCount.toNat).drop i) = [] := by
        apply List.drop_eq_nil_of_le
        rw [List.length_take]
        exact le_trans (min_le_left _ _) hle
      rw [gtbbLoop, if_neg h, hdrop]
      simp

theorem Model.set_eq (self model : Model) : self.set model = model := rfl

theorem gtbb_of_not_pos (m : Model) (h : ¬ m.meshCount > 0) :
    (m.GetTransformedBoundingBox).1 = zeroBox := by
  simp only [Model.GetTransformedBoundingBox, if_neg h]

/-- Claim C1: for every `Model` with `meshCount ≥ 1` whose `meshes` pointer holds at
least `meshCount` meshes, `GetTransformedBoundingBox` returns the left fold of the
componentwise min/max merge (`minmaxMerge`) over the per-mesh transformed bounding
boxes of `meshes[0..meshCount-1]`, starting from the transformed box of
`meshes[0]`. -/
theorem getTransformedBoundingBox_is_minmax_foldl (m : Model) (ms : List Mesh)
    (hm : m.meshes = some ms) (hlen : m.meshCount.toNat ≤ ms.length)
    (hpos : 1 ≤ m.meshCount) :
    (m.GetTransformedBoundingBox).1 =
      (((ms.take m.meshCount.toNat).drop 1).map
          (fun mesh => mesh.GetTransformedBoundingBox m.transform)).foldl minmaxMerge
        ((ms.getD 0 defaultMesh).GetTransformedBoundingBox m.transform) := by
  have hpos' : m.meshCount > 0 := by omega
  simp only [Model.GetTransformedBoundingBox, if_pos hpos']
  rw [gtbbLoop_eq_foldl m ms hm hlen m.meshCount.toNat 1 _ (by omega)]
  rw [mergeBounds_eq_minmaxMerge]
  congr 1
  rw [Model.meshAt, hm]
  rfl

/-- Witness for C1 at the concrete two-mesh model `wModel`. -/
theorem getTransformedBoundingBox_is_minmax_foldl_witness :
    wModel.meshes = some [meshA, meshB] ∧
    wModel.meshCount.toNat ≤ ([meshA, meshB] : List Mesh).length ∧
    1 ≤ wModel.meshCount ∧
    (wModel.GetTransformedBoundingBox).1 =
      ((([meshA, meshB].take wModel.meshCount.toNat).drop 1).map
          (fun mesh => mesh.GetTransformedBoundingBox wModel.transform)).foldl minmaxMerge
        (([meshA, meshB].getD 0 defaultMesh).GetTransformedBoundingBox wModel.transform) :=
  ⟨rfl, by decide, by decide,
    getTransformedBoundingBox_is_minmax_foldl wModel [meshA, meshB] rfl (by decide) (by decide)⟩

/-- Claim C10: for every `Model` with `meshCount ≤ 0`, `GetTransformedBoundingBox`
returns the zero-initialized box, and it does so for every value of the `meshes`
field, so the meshes array is not read. -/
theorem getTransformedBoundingBox_nonpos_zero (m : Model) (h : m.meshCount ≤ 0) :
    (m.GetTransformedBoundingBox).1 = zeroBox ∧
    ∀ ptr : Option (List Mesh),
      ((({ m with meshes := ptr } : Model)).GetTransformedBoundingBox).1 = zeroBox := by
  refine ⟨gtbb_of_not_pos m (by omega), fun ptr => gtbb_of_not_pos _ ?_⟩
  show ¬ m.meshCount > 0
  omega

/-- Witness for C10 at the concrete empty model `wEmpty`. -/
theorem getTransformedBoundingBox_nonpos_zero_witness :
    wEmpty.meshCount ≤ 0 ∧ (wEmpty.GetTransformedBoundingBox).1 = zeroBox :=
  ⟨by decide, (getTransformedBoundingBox_nonpos_zero wEmpty (by decide)).1⟩

/-- Claim C2: `Load(fileName)`, `Load(mesh)`, and the constructors from a file name
or a mesh throw a `RaylibException` exactly when the engine-loaded model is not
ready (`IsModelReady` false); when it is ready no exception is thrown and the
wrapper's nine fields equal those of the engine-returned model. -/
theorem load_throws_iff_not_ready (eng : Engine) (init : Model) (fileName : String)
    (mesh : Mesh) :
    (eng.isModelReady (eng.loadModel fileName) = true →
      Model.LoadFile eng init fileName = Except.ok (eng.loadModel fileName) ∧
      Model.ctorFromFile eng init fileName = Except.ok (eng.loadModel fileName)) ∧
    (eng.isModelReady (eng.loadModel fileName) = false →
      Model.LoadFile eng init fileName =
        Except.error ⟨"Failed to load Model from " ++ fileName⟩ ∧
      Model.ctorFromFile eng init fileName =
        Except.error ⟨"Failed to load Model from " ++ fileName⟩) ∧
    (eng.isModelReady (eng.loadModelFromMesh mesh) = true →
      Model.LoadMesh eng init mesh = Except.ok (eng.loadModelFromMesh mesh) ∧
      Model.ctorFromMesh eng init mesh = Except.ok (eng.loadModelFromMesh mesh)) ∧
    (eng.isModelReady (eng.loadModelFromMesh mesh) = false →
      Model.LoadMesh eng init mesh = Except.error ⟨"Failed to load Model from Mesh"⟩ ∧
      Model.ctorFromMesh eng init mesh = Except.error ⟨"Failed to load Model from Mesh"⟩) := by
  refine ⟨fun h => ?_, fun h => ?_, fun h => ?_, fun h => ?_⟩ <;>
    simp [Model.LoadFile, Model.LoadMesh, Model.ctorFromFile, Model.ctorFromMesh,
      Model.IsReady, Model.set_eq, h]

/-- Witness for C2: a ready engine load succeeds with the engine's model, a failed
one reports the exception, at concrete engines and inputs. -/
theorem load_throws_iff_not_ready_witness :
    engReady.isModelReady (engReady.loadModel "m.obj") = true ∧
    Model.LoadFile engReady wEmpty "m.obj" = Except.ok (engReady.loadModel "m.obj") ∧
    engFail.isModelReady (engFail.loadModel "m.obj") = false ∧
    Model.LoadFile engFail wEmpty "m.obj" =
      Except.error ⟨"Failed to load Model from " ++ "m.obj"⟩ :=
  ⟨rfl,
   ((load_throws_iff_not_ready engReady wEmpty "m.obj" meshA).1 rfl).1,
   rfl,
   (((load_throws_iff_not_ready engFail wEmpty "m.obj" meshA).2.1) rfl).1⟩

/-- Claim C3: move construction and move assignment from a distinct object copy all
nine fields of the source into the destination and null out the moved-from source
(`meshCount`, `materialCount`, `boneCount` zero; all five pointers null). -/
theorem move_transfers_and_nulls_source (init self other : Model) :
    (Model.moveCtor init other).1 = other ∧
    (Model.moveCtor init other).2.meshCount = 0 ∧
    (Model.moveCtor init other).2.materialCount = 0 ∧
    (Model.moveCtor init other).2.boneCount = 0 ∧
    (Model.moveCtor init other).2.meshes = none ∧
    (Model.moveCtor init other).2.materials = none ∧
    (Model.moveCtor init other).2.meshMaterial = none ∧
    (Model.moveCtor init other).2.bones = none ∧
    (Model.moveCtor init other).2.bindPose = none ∧
    (Model.moveAssign self other false).1 = other ∧
    (Model.moveAssign self other false).2.1.meshCount = 0 ∧
    (Model.moveAssign self other false).2.1.materialCount = 0 ∧
    (Model.moveAssign self other false).2.1.boneCount = 0 ∧
    (Model.moveAssign self other false).2.1.meshes = none ∧
    (Model.moveAssign self other false).2.1.materials = none ∧
    (Model.moveAssign self other false).2.1.meshMaterial = none ∧
    (Model.moveAssign self other false).2.1.bones = none ∧
    (Model.moveAssign self other false).2.1.bindPose = none := by
  repeat' apply And.intro
  all_goals rfl

theorem unload_of_null (m : Model) (hm : m.meshes = none) (hmat : m.materials = none) :
    m.Unload = (m, []) := by
  simp [Model.Unload, hm, hmat]

theorem unloadIter_of_null (m : Model) (hm : m.meshes = none)
    (hmat : m.materials = none) : ∀ n : Nat, m.unloadIter n = (m, []) := by
  intro n
  induction n with
  | zero => rfl
  | succ n ih => simp [Model.unloadIter, unload_of_null m hm hmat, ih]

/-- Claim C5: after a move (construction, or assignment into a distinct object),
any number of subsequent `Unload`s on the moved-from object, and its destructor,
fire no engine call and leave it unchanged: its `meshes` and `materials` are both
null, so the unload branch is unreachable. -/
theorem movedFrom_unload_silent (init self other : Model) (n : Nat) :
    ((Model.moveCtor init other).2.meshes = none ∧
     (Model.moveCtor init other).2.materials = none ∧
     (Model.moveCtor init other).2.Unload = ((Model.moveCtor init other).2, []) ∧
     (Model.moveCtor init other).2.dtor = ((Model.moveCtor init other).2, []) ∧
     (Model.moveCtor init other).2.unloadIter n = ((Model.moveCtor init other).2, [])) ∧
    ((Model.moveAssign self other false).2.1.meshes = none ∧
     (Model.moveAssign self other false).2.1.materials = none ∧
     (Model.moveAssign self other false).2.1.Unload =
       ((Model.moveAssign self other false).2.1, []) ∧
     (Model.moveAssign self other false).2.1.dtor =
       ((Model.moveAssign self other false).2.1, []) ∧
     (Model.moveAssign self other false).2.1.unloadIter n =
       ((Model.moveAssign self other false).2.1, [])) := by
  refine ⟨⟨rfl, rfl, ?_, ?_, ?_⟩, ⟨rfl, rfl, ?_, ?_, ?_⟩⟩
  · exact unload_of_null _ rfl rfl
  · exact unload_of_null _ rfl rfl
  · exact unloadIter_of_null _ rfl rfl n
  · exact unload_of_null _ rfl rfl
  · exact unload_of_null _ rfl rfl
  · exact unloadIter_of_null _ rfl rfl n

/-- Claim C4: `Unload` fires `::UnloadModel` exactly when `meshes` or `materials`
is non-null, nulls both afterwards, fires at most one engine call, and is
idempotent: a second `Unload` changes nothing and fires nothing. -/
theorem unload_guard_and_idempotent (m : Model) :
    (m.Unload.2 = [EngineCall.unloadModel m] ↔ (m.meshes ≠ none ∨ m.materials ≠ none)) ∧
    (m.Unload.2 = [] ↔ (m.meshes = none ∧ m.materials = none)) ∧
    m.Unload.1.meshes = none ∧
    m.Unload.1.materials = none ∧
    m.Unload.1.Unload = (m.Unload.1, []) ∧
    m.Unload.2.length ≤ 1 ∧
    m.dtor = m.Unload := by
  by_cases hm : m.meshes = none <;> by_cases hmat : m.materials = none <;>
    simp [Model.Unload, Model.dtor, hm, hmat]

/-- Witness for C4 at the loaded model `wModel` (non-null `meshes`): the single
`::UnloadModel` call is fired. -/
theorem unload_guard_and_idempotent_witness :
    (wModel.meshes ≠ none ∨ wModel.materials ≠ none) ∧
    wModel.Unload.2 = [EngineCall.unloadModel wModel] :=
  ⟨Or.inl (by decide), (unload_guard_and_idempotent wModel).1.mpr (Or.inl (by decide))⟩

/-- Claim C7: for each of the nine fields exposed through `GETTERSETTER`, the
getter returns the current value of the field, and the setter writes its argument
to that field and leaves the other eight fields unchanged. -/
theorem gettersetters_read_write_frame (m : Model) (vMat : Matrix) (vN vM vB : Int)
    (vMeshes : Option (List Mesh)) (vMats : Option (List Material))
    (vMM : Option (List Int)) (vBones : Option (List BoneInfo))
    (vBP : Option (List Transform)) :
    m.GetTransform = m.transform ∧
    m.GetMeshCount = m.meshCount ∧
    m.GetMaterialCount = m.materialCount ∧
    m.GetMeshes = m.meshes ∧
    m.GetMaterials = m.materials ∧
    m.GetMeshMaterial = m.meshMaterial ∧
    m.GetBoneCount = m.boneCount ∧
    m.GetBones = m.bones ∧
    m.GetBindPose = m.bindPose ∧
    (m.SetTransform vMat).transform = vMat ∧
    (m.SetTransform vMat).meshCount = m.meshCount ∧
    (m.SetTransform vMat).materialCount = m.materialCount ∧
    (m.SetTransform vMat).meshes = m.meshes ∧
    (m.SetTransform vMat).materials = m.materials ∧
    (m.SetTransform vMat).meshMaterial = m.meshMaterial ∧
    (m.SetTransform vMat).boneCount = m.boneCount ∧
    (m.SetTransform vMat).bones = m.bones ∧
    (m.SetTransform vMat).bindPose = m.bindPose ∧
    (m.SetMeshCount vN).meshCount = vN ∧
    (m.SetMeshCount vN).transform = m.transform ∧
    (m.SetMeshCount vN).materialCount = m.materialCount ∧
    (m.SetMeshCount vN).meshes = m.meshes ∧
    (m.SetMeshCount vN).materials = m.materials ∧
    (m.SetMeshCount vN).meshMaterial = m.meshMaterial ∧
    (m.SetMeshCount vN).boneCount = m.boneCount ∧
    (m.SetMeshCount vN).bones = m.bones ∧
    (m.SetMeshCount vN).bindPose = m.bindPose ∧
    (m.SetMaterialCount vM).materialCount = vM ∧
    (m.SetMaterialCount vM).transform = m.transform ∧
    (m.SetMaterialCount vM).meshCount = m.meshCount ∧
    (m.SetMaterialCount vM).meshes = m.meshes ∧
    (m.SetMaterialCount vM).materials = m.materials ∧
    (m.SetMaterialCount vM).meshMaterial = m.meshMaterial ∧
    (m.SetMaterialCount vM).boneCount = m.boneCount ∧
    (m.SetMaterialCount vM).bones = m.bones ∧
    (m.SetMaterialCount vM).bindPose = m.bindPose ∧
    (m.SetMeshes vMeshes).meshes = vMeshes ∧
    (m.SetMeshes vMeshes).transform = m.transform ∧
    (m.SetMeshes vMeshes).meshCount = m.meshCount ∧
    (m.SetMeshes vMeshes).materialCount = m.materialCount ∧
    (m.SetMeshes vMeshes).materials = m.materials ∧
    (m.SetMeshes vMeshes).meshMaterial = m.meshMaterial ∧
    (m.SetMeshes vMeshes).boneCount = m.boneCount ∧
    (m.SetMeshes vMeshes).bones = m.bones ∧
    (m.SetMeshes vMeshes).bindPose = m.bindPose ∧
    (m.SetMaterials vMats).materials = vMats ∧
    (m.SetMaterials vMats).transform = m.transform ∧
    (m.SetMaterials vMats).meshCount = m.meshCount ∧
    (m.SetMaterials vMats).materialCount = m.materialCount ∧
    (m.SetMaterials vMats).meshes = m.meshes ∧
    (m.SetMaterials vMats).meshMaterial = m.meshMaterial ∧
    (m.SetMaterials vMats).boneCount = m.boneCount ∧
    (m.SetMaterials vMats).bones = m.bones ∧
    (m.SetMaterials vMats).bindPose = m.bindPose ∧
    (m.SetMeshMaterialField vMM).meshMaterial = vMM ∧
    (m.SetMeshMaterialField vMM).transform = m.transform ∧
    (m.SetMeshMaterialField vMM).meshCount = m.meshCount ∧
    (m.SetMeshMaterialField vMM).materialCount = m.materialCount ∧
    (m.SetMeshMaterialField vMM).meshes = m.meshes ∧
    (m.SetMeshMaterialField vMM).materials = m.materials ∧
    (m.SetMeshMaterialField vMM).boneCount = m.boneCount ∧
    (m.SetMeshMaterialField vMM).bones = m.bones ∧
    (m.SetMeshMaterialField vMM).bindPose = m.bindPose ∧
    (m.SetBoneCount vB).boneCount = vB ∧
    (m.SetBoneCount vB).transform = m.transform ∧
    (m.SetBoneCount vB).meshCount = m.meshCount ∧
    (m.SetBoneCount vB).materialCount = m.materialCount ∧
    (m.SetBoneCount vB).meshes = m.meshes ∧
    (m.SetBoneCount vB).materials = m.materials ∧
    (m.SetBoneCount vB).meshMaterial = m.meshMaterial ∧
    (m.SetBoneCount vB).bones = m.bones ∧
    (m.SetBoneCount vB).bindPose = m.bindPose ∧
    (m.SetBones vBones).bones = vBones ∧
    (m.SetBones vBones).transform = m.transform ∧
    (m.SetBones vBones).meshCount = m.meshCount ∧
    (m.SetBones vBones).materialCount = m.materialCount ∧
    (m.SetBones vBones).meshes = m.meshes ∧
    (m.SetBones vBones).materials = m.materials ∧
    (m.SetBones vBones).meshMaterial = m.meshMaterial ∧
    (m.SetBones vBones).boneCount = m.boneCount ∧
    (m.SetBones vBones).bindPose = m.bindPose ∧
    (m.SetBindPose vBP).bindPose = vBP ∧
    (m.SetBindPose vBP).transform = m.transform ∧
    (m.SetBindPose vBP).meshCount = m.meshCount ∧
    (m.SetBindPose vBP).materialCount = m.materialCount ∧
    (m.SetBindPose vBP).meshes = m.meshes ∧
    (m.SetBindPose vBP).materials = m.materials ∧
    (m.SetBindPose vBP).meshMaterial = m.meshMaterial ∧
    (m.SetBindPose vBP).boneCount = m.boneCount ∧
    (m.SetBindPose vBP).bones = m.bones := by
  repeat' apply And.intro
  all_goals rfl

/-- Claim C6: each query/command method is a single forward to its engine call with
arguments unchanged: `GetBoundingBox` returns `::GetModelBoundingBox(*this)`,
`IsReady` returns `::IsModelReady(*this)`, `IsModelAnimationValid` returns
`::IsModelAnimationValid(*this, anim)`, `SetMeshMaterial` and `UpdateAnimation`
fire exactly one `::SetModelMeshMaterial` / `::UpdateModelAnimation` call, and the
`BoundingBox` conversion returns the same value as `GetBoundingBox`. -/
theorem methods_forward_single_engine_calls (eng : Engine) (m : Model)
    (anim : ModelAnimation) (frame meshId materialId : Int) :
    (m.GetBoundingBox eng).1 = eng.getModelBoundingBox m ∧
    (m.IsReady eng).1 = eng.isModelReady m ∧
    (m.IsModelAnimationValid eng anim).1 = eng.isModelAnimationValid m anim ∧
    m.SetMeshMaterial eng meshId materialId =
      (eng.setModelMeshMaterial m meshId materialId,
       [EngineCall.setModelMeshMaterial m meshId materialId]) ∧
    m.UpdateAnimation anim frame = (m, [EngineCall.updateModelAnimation m anim frame]) ∧
    (m.toBoundingBox eng).1 = (m.GetBoundingBox eng).1 :=
  ⟨rfl, rfl, rfl, rfl, rfl, rfl⟩

/-- Claim C8: the const draw and query methods (both `Draw` overloads, both
`DrawWires` overloads, `GetBoundingBox`, `GetTransformedBoundingBox`,
`IsModelAnimationValid`, `IsReady`, and the `BoundingBox` conversion) leave every
field of the `Model` unchanged. -/
theorem const_methods_preserve_fields (eng : Engine) (m : Model)
    (anim : ModelAnimation) (position rotationAxis scaleV : Vector3) (scale : ℚ)
    (angle : Radian) (tint : Color) :
    (m.Draw position scale tint).1 = m ∧
    (m.DrawEx position rotationAxis angle scaleV tint).1 = m ∧
    (m.DrawWires position scale tint).1 = m ∧
    (m.DrawWiresEx position rotationAxis angle scaleV tint).1 = m ∧
    (m.GetBoundingBox eng).2 = m ∧
    (m.GetTransformedBoundingBox).2 = m ∧
    (m.IsModelAnimationValid eng anim).2 = m ∧
    (m.IsReady eng).2 = m ∧
    (m.toBoundingBox eng).2 = m := by
  refine ⟨rfl, rfl, rfl, rfl, rfl, ?_, rfl, rfl, rfl⟩
  simp only [Model.GetTransformedBoundingBox]
  split <;> rfl

/-- Claim C9: construction from a raw `::Model` and assignment from a raw
`::Model` shallow-copy all nine fields (so the wrapper equals the source and its
pointer fields alias the source's) and fire no engine call, in particular no
`::UnloadModel`. -/
theorem raw_copy_shallow_no_unload (init self model : Model) :
    Model.copyCtorFromRaw init model = (model, []) ∧
    Model.assignFromRaw self model = (model, []) ∧
    (Model.copyCtorFromRaw init model).1.meshes = model.meshes ∧
    (Model.copyCtorFromRaw init model).1.materials = model.materials ∧
    (Model.copyCtorFromRaw init model).1.meshMaterial = model.meshMaterial ∧
    (Model.copyCtorFromRaw init model).1.bones = model.bones ∧
    (Model.copyCtorFromRaw init model).1.bindPose = model.bindPose ∧
    (Model.copyCtorFromRaw init model).2 = [] ∧
    (Model.assignFromRaw self model).1.meshes = model.meshes ∧
    (Model.assignFromRaw self model).1.materials = model.materials ∧
    (Model.assignFromRaw self model).1.meshMaterial = model.meshMaterial ∧
    (Model.assignFromRaw self model).1.bones = model.bones ∧
    (Model.assignFromRaw self model).1.bindPose = model.bindPose ∧
    (Model.assignFromRaw self model).2 = [] := by
  repeat' apply And.intro
  all_goals rfl

end raylib
